import Mathlib

set_option maxHeartbeats 1000000

/-!
Shallow embedding of `src/section.js` — the assembly layout compiler of the
Section library.  JavaScript records with possibly-absent keys are modelled
with `Option` fields (`none` = key absent / value `undefined`).  JavaScript
numbers are modelled as rationals; `none` in an arithmetic position stands
for `undefined`/`NaN` (both are falsy and compare `false` under `<`, which
is all this code observes about them).  A thrown `TypeError` and a
non-terminating loop (an `Infinity` loop bound) are modelled by the
`BuildResult` outcomes `typeError` and `diverges`.
-/

/-- The `offset` sub-record `{top,left,bottom,right,front,back}`.  A caller
may supply a partial offset record, so each field is optional. -/
structure OffsetRec where
  top : Option ℚ := none
  left : Option ℚ := none
  bottom : Option ℚ := none
  right : Option ℚ := none
  front : Option ℚ := none
  back : Option ℚ := none
deriving DecidableEq

/-- A material specification record (`{texture, color, opacity}`). -/
structure MaterialSpec where
  texture : Option String := none
  color : Option ℚ := none
  opacity : Option ℚ := none
deriving DecidableEq

/-- An element record (leaf layer description).  The outer `Option` on each
field records whether the key is present.  `material`'s value may itself be
`null` (the built-in default), hence `Option (Option MaterialSpec)`. -/
structure ElementRec where
  name : Option String := none
  constructionPlane : Option ℚ := none
  height : Option ℚ := none
  width : Option ℚ := none
  thickness : Option ℚ := none
  color : Option ℚ := none
  opacity : Option ℚ := none
  material : Option (Option MaterialSpec) := none
  transparency : Option ℚ := none
  type : Option String := none
  offset : Option OffsetRec := none
deriving DecidableEq

/-- The built-in default `offset` record (all trims zero). -/
def builtinOffsets : OffsetRec :=
  { top := some 0, left := some 0, bottom := some 0,
    right := some 0, front := some 0, back := some 0 }

/-- The built-in `options.defaultElement` record from the constructor. -/
def builtinDefaultElement : ElementRec :=
  { name := some "element"
    constructionPlane := some 90
    height := some 500
    width := some 500
    thickness := some 10
    color := some 0xcccccc
    opacity := some 1
    material := some none
    transparency := some 1
    type := some "sheet"
    offset := some builtinOffsets }

mutual
/-- A model node: either a single element record or a composite
(a JavaScript array of nested model nodes). -/
inductive Model where
  | elem (e : ElementRec)
  | comp (ms : ModelList)
/-- A list of model nodes (a JavaScript array). -/
inductive ModelList where
  | mnil
  | mcons (head : Model) (tail : ModelList)
end

/-- Convert a `ModelList` to an ordinary list. -/
def ModelList.toList : ModelList → List Model
  | .mnil => []
  | .mcons m ms => m :: ms.toList

/-- One key of the defaulting loop: keep the present value, otherwise take
the default (`if (!model.hasOwnProperty(key)) model[key] = defaults[key]`). -/
def keyDefault {α : Type} (v dv : Option α) : Option α :=
  match v with
  | some x => some x
  | none => dv

/-- One defaulting step on a single element record: for every key present in
`d` and absent from `e`, take the default.  Present fields are kept
unchanged; presence is checked per field. -/
def applyElementDefaults (e d : ElementRec) : ElementRec :=
  { name := keyDefault e.name d.name
    constructionPlane := keyDefault e.constructionPlane d.constructionPlane
    height := keyDefault e.height d.height
    width := keyDefault e.width d.width
    thickness := keyDefault e.thickness d.thickness
    color := keyDefault e.color d.color
    opacity := keyDefault e.opacity d.opacity
    material := keyDefault e.material d.material
    transparency := keyDefault e.transparency d.transparency
    type := keyDefault e.type d.type
    offset := keyDefault e.offset d.offset }

mutual
/-- The function `applyModelDefaults(model, defaults)`: recurse through arrays, fill in
missing fields on element records. -/
def applyModelDefaults : Model → ElementRec → Model
  | .elem e, d => .elem (applyElementDefaults e d)
  | .comp ms, d => .comp (applyModelDefaultsList ms d)
/-- The array branch of `applyModelDefaults` (`model.forEach(...)`). -/
def applyModelDefaultsList : ModelList → ElementRec → ModelList
  | .mnil, _ => .mnil
  | .mcons m ms, d => .mcons (applyModelDefaults m d) (applyModelDefaultsList ms d)
end

mutual
/-- Leaves (element records) of a model node, left to right. -/
def leavesOf : Model → List ElementRec
  | .elem e => [e]
  | .comp ms => leavesOfList ms
/-- Leaves of a model list. -/
def leavesOfList : ModelList → List ElementRec
  | .mnil => []
  | .mcons m ms => leavesOf m ++ leavesOfList ms
end

/-- Outcome of running a piece of the compiler: a value, a thrown
`TypeError` (e.g. a property access on `undefined`/`null`), or a loop that
never terminates (an `Infinity` iteration bound). -/
inductive BuildResult (α : Type) where
  | ok (a : α)
  | typeError
  | diverges
deriving DecidableEq

/-- A resolved THREE.js material: either textured (`MeshBasicMaterial` with a
map) or a solid `MeshLambertMaterial` with a color and an opacity. -/
inductive ResolvedMaterial where
  | textured (tex : String)
  | lambert (color : Option ℚ) (opacity : ℚ)
deriving DecidableEq

/-- The expression `material.opacity || 1.0`: a falsy (zero or absent) opacity becomes 1. -/
def jsOr1 : Option ℚ → ℚ
  | some o => if o = 0 then 1 else o
  | none => 1

/-- The function `getMaterial(material)`.  The argument is the JS value of the element's
`material` property with `null` and `undefined` collapsed to `none` (both are
falsy and both make the subsequent `material.color` access throw).  Texture
loading is treated as succeeding; on the solid path the code reads
`material.color` of a possibly-null `material`, which throws a `TypeError`. -/
def getMaterial : Option MaterialSpec → BuildResult ResolvedMaterial
  | some spec =>
    match spec.texture with
    | some t => .ok (.textured t)
    | none => .ok (.lambert spec.color (jsOr1 spec.opacity))
  | none => .typeError

/-- A THREE.js position vector; `none` components stand for non-finite
values (`NaN`/`±Infinity`) arising from arithmetic on `undefined`. -/
structure Vec3 where
  x : Option ℚ
  y : Option ℚ
  z : Option ℚ
deriving DecidableEq

/-- The default position of a freshly created Object3D/Mesh. -/
def origin3 : Vec3 := ⟨some 0, some 0, some 0⟩

/-- A scene-graph object: a box mesh (`BoxGeometry` + material) or an
`Object3D` group with children. -/
inductive Obj where
  | box (name : Option String) (width height thickness : Option ℚ)
        (mat : ResolvedMaterial) (pos : Vec3)
  | group (pos : Vec3) (children : List Obj)

/-- The position of an object. -/
def objPos : Obj → Vec3
  | .box _ _ _ _ _ p => p
  | .group p _ => p

/-- The setter `obj.position.set(...)`. -/
def setObjPos : Obj → Vec3 → Obj
  | .box n w h t m _, p => .box n w h t m p
  | .group _ cs, p => .group p cs

/-- JS subtraction where an `undefined`/`NaN` operand yields `NaN`. -/
def osub : Option ℚ → Option ℚ → Option ℚ
  | some a, some b => some (a - b)
  | _, _ => none

/-- JS multiplication where an `undefined`/`NaN` operand yields `NaN`. -/
def omul : Option ℚ → Option ℚ → Option ℚ
  | some a, some b => some (a * b)
  | _, _ => none

/-- The function `createUnitMesh(name, width, height, thickness, material)`: a box mesh
with the resolved material at the default position; throws if `getMaterial`
throws. -/
def createUnitMesh (name : Option String) (w h t : Option ℚ)
    (material : Option MaterialSpec) : BuildResult Obj :=
  match getMaterial material with
  | .ok m => .ok (.box name w h t m origin3)
  | .typeError => .typeError
  | .diverges => .diverges

/-- Result of `Math.ceil(a / b)` in JS: a finite integer, `Infinity`
(positive numerator over zero), or `NaN`-like (undefined operand, `0/0`, or
negative over zero, all of which make the `for` loop run zero times). -/
inductive CeilResult where
  | fin (n : ℤ)
  | posInf
  | nan
deriving DecidableEq

/-- The value `Math.ceil(a / b)` on possibly-undefined JS numbers. -/
def jsCeilDiv (a b : Option ℚ) : CeilResult :=
  match a, b with
  | some x, some y => if y = 0 then (if 0 < x then .posInf else .nan) else .fin ⌈x / y⌉
  | _, _ => .nan

/-- Number of iterations of `for (i = 0; i < bound; i++)`:
`none` means the loop never stops (`Infinity` bound). -/
def loopCount : CeilResult → Option ℕ
  | .fin n => some n.toNat
  | .posInf => none
  | .nan => some 0

/-- The grid-centering translation applied to the whole unit grid along one
axis: `-(count * size / 2) + size * 0.5`.  Non-finite `count` or `size`
yields a non-finite coordinate. -/
def gridShift (count : CeilResult) (size : Option ℚ) : Option ℚ :=
  match count, size with
  | .fin n, some x => some (-((n : ℚ) * x / 2) + x * (1 / 2))
  | _, _ => none

/-- The unit boxes laid out row-major at local positions
`(col * width, row * height, 0)`, trimmed by the offsets. -/
def gridUnits (obj : ElementRec) (off : OffsetRec) (mat : ResolvedMaterial)
    (r c : ℕ) : List Obj :=
  (List.range r).flatMap fun (i : ℕ) => (List.range c).map fun (j : ℕ) =>
    Obj.box obj.name
      (osub (osub obj.width off.left) off.right)
      (osub (osub obj.height off.top) off.bottom)
      (osub (osub obj.thickness off.front) off.back)
      mat
      ⟨omul (some (j : ℚ)) obj.width, omul (some (i : ℚ)) obj.height, some 0⟩

/-- The function `createUnitizedMesh(obj)` against defaults `d`:
`rows = Math.ceil(defaults.height / obj.height)`,
`cols = Math.ceil(defaults.width / obj.width)`, one unit mesh per grid cell,
then the group is translated to be centered on X/Y.  If the loop body runs at
least once, the offset dereference and material resolution can throw; if a
bound is `Infinity` the loop never terminates. -/
def createUnitizedMesh (obj : ElementRec) (d : ElementRec) : BuildResult Obj :=
  let rowsR := jsCeilDiv d.height obj.height
  let colsR := jsCeilDiv d.width obj.width
  let gpos : Vec3 := ⟨gridShift colsR obj.width, gridShift rowsR obj.height, some 0⟩
  match loopCount rowsR, loopCount colsR with
  | some 0, _ => .ok (.group gpos [])
  | some (_ + 1), some 0 => .ok (.group gpos [])
  | none, some 0 => .diverges
  | some (r + 1), some (c + 1) =>
    (match obj.offset with
     | none => .typeError
     | some off =>
       match getMaterial (Option.join obj.material) with
       | .ok mat => .ok (.group gpos (gridUnits obj off mat (r + 1) (c + 1)))
       | _ => .typeError)
  | some (_ + 1), none =>
    (match obj.offset with
     | none => .typeError
     | some _ =>
       match getMaterial (Option.join obj.material) with
       | .ok _ => .diverges
       | _ => .typeError)
  | none, some (_ + 1) =>
    (match obj.offset with
     | none => .typeError
     | some _ =>
       match getMaterial (Option.join obj.material) with
       | .ok _ => .diverges
       | _ => .typeError)
  | none, none =>
    (match obj.offset with
     | none => .typeError
     | some _ =>
       match getMaterial (Option.join obj.material) with
       | .ok _ => .diverges
       | _ => .typeError)

mutual
/-- The function `buildLayer(layer)` against defaults `d`.  Returns `ok none` when the JS
function returns `undefined` (the `frame` branch).  A composite groups the
non-undefined member meshes; `void` is an empty `Object3D`; every other type
falls into the sheet branch, which sizes the box by the *default* element's
width/height. -/
def buildLayer (d : ElementRec) : Model → BuildResult (Option Obj)
  | .comp ms =>
    (match buildMembers d ms with
     | .ok os => .ok (some (.group origin3 (os.filterMap id)))
     | .typeError => .typeError
     | .diverges => .diverges)
  | .elem e =>
    if e.type = some "unit" then
      (match createUnitizedMesh e d with
       | .ok o => .ok (some o)
       | .typeError => .typeError
       | .diverges => .diverges)
    else if e.type = some "frame" then
      .ok none
    else if e.type = some "void" then
      .ok (some (.group origin3 []))
    else
      (match e.offset with
       | none => .typeError
       | some off =>
         match createUnitMesh e.name d.width d.height
             (osub (osub e.thickness off.front) off.back)
             (Option.join e.material) with
         | .ok o => .ok (some o)
         | .typeError => .typeError
         | .diverges => .diverges)
/-- The member loop of the composite branch of `buildLayer`. -/
def buildMembers (d : ElementRec) : ModelList → BuildResult (List (Option Obj))
  | .mnil => .ok []
  | .mcons m ms =>
    (match buildLayer d m with
     | .ok o =>
       (match buildMembers d ms with
        | .ok os => .ok (o :: os)
        | .typeError => .typeError
        | .diverges => .diverges)
     | .typeError => .typeError
     | .diverges => .diverges)
end

/-- The `thickness` property of an array member as read by the `reduce`
callback (`undefined` on a nested array). -/
def memberThickness : Model → Option ℚ
  | .elem e => e.thickness
  | .comp _ => none

/-- The body of `layer.reduce(function (last, current) {...}, 0)`:
`(last < current.thickness) ? current.thickness : last`, where a comparison
against `undefined` is false. -/
def reduceThicknessAux : ModelList → ℚ → ℚ
  | .mnil, last => last
  | .mcons m ms, last =>
    reduceThicknessAux ms
      (match memberThickness m with
       | some t => if last < t then t else last
       | none => last)

/-- The composite-thickness reduction, starting from 0. -/
def reduceThickness (ms : ModelList) : ℚ := reduceThicknessAux ms 0

/-- The layer thickness before the minimum clamp: the element's own
`thickness` (possibly `undefined`) or the composite reduction. -/
def rawThickness : Model → Option ℚ
  | .elem e => e.thickness
  | .comp ms => some (reduceThickness ms)

/-- The clamp `thickness = (thickness < 5) ? 5 : thickness` applied to the raw layer
thickness; `undefined < 5` is false, so an undefined thickness stays
undefined. -/
def effectiveThickness (m : Model) : Option ℚ :=
  match rawThickness m with
  | some t => some (if t < 5 then 5 else t)
  | none => none

/-- The effective thickness as a rational (0 for the undefined case — the
value the running total advances by, since `undefined || 0` is 0). -/
def effQ (m : Model) : ℚ := (effectiveThickness m).getD 0

/-- The layer loop of `build()`: each layer mesh is positioned at
`(0, 0, totalThickness + thickness / 2)` and `totalThickness` advances by
`thickness || 0`.  A returned `undefined` mesh makes `mesh.position.set`
throw. -/
def buildAux (d : ElementRec) : ModelList → ℚ → BuildResult (List Obj × ℚ)
  | .mnil, tot => .ok ([], tot)
  | .mcons layer rest, tot =>
    (match buildLayer d layer with
     | .ok (some mesh) =>
       (match buildAux d rest (tot + (effectiveThickness layer).getD 0) with
        | .ok (ps, final) =>
          .ok (setObjPos mesh
                ⟨some 0, some 0, (effectiveThickness layer).map (fun t => tot + t / 2)⟩
               :: ps, final)
        | .typeError => .typeError
        | .diverges => .diverges)
     | .ok none => .typeError
     | .typeError => .typeError
     | .diverges => .diverges)

/-- The function `build()`: apply defaults to the whole model, then stack the layers.
The result is the list of positioned layer meshes (the children of the
output group) together with the final running thickness. -/
def build (model : ModelList) (d : ElementRec) : BuildResult (List Obj × ℚ) :=
  buildAux d (applyModelDefaultsList model d) 0

/-- The constructor's `instance.options` record. -/
structure SectionOptions where
  background : ℚ
  debug : Bool
  defaultElement : ElementRec
  fps : ℚ
  selectedMaterialColor : ℚ
  selectedMaterialOpacity : ℚ
  showOriginMarker : Bool
deriving DecidableEq

/-- The built-in option values set by the constructor. -/
def builtinOptions : SectionOptions :=
  { background := 0xffffff
    debug := false
    defaultElement := builtinDefaultElement
    fps := 30
    selectedMaterialColor := 0xffff00
    selectedMaterialOpacity := 1 / 5
    showOriginMarker := true }

/-- A (possibly partial) `options` record supplied to the constructor:
`none` means the key is absent. -/
structure OptionsPatch where
  background : Option ℚ := none
  debug : Option Bool := none
  defaultElement : Option ElementRec := none
  fps : Option ℚ := none
  selectedMaterialColor : Option ℚ := none
  selectedMaterialOpacity : Option ℚ := none
  showOriginMarker : Option Bool := none
deriving DecidableEq

/-- The constructor's option override loop:
`Object.keys(options).forEach(key => instance.options[key] = options[key])`.
Each supplied top-level key replaces the built-in value wholesale. -/
def overrideOptions (opts : SectionOptions) (p : OptionsPatch) : SectionOptions :=
  { background := p.background.getD opts.background
    debug := p.debug.getD opts.debug
    defaultElement := p.defaultElement.getD opts.defaultElement
    fps := p.fps.getD opts.fps
    selectedMaterialColor := p.selectedMaterialColor.getD opts.selectedMaterialColor
    selectedMaterialOpacity := p.selectedMaterialOpacity.getD opts.selectedMaterialOpacity
    showOriginMarker := p.showOriginMarker.getD opts.showOriginMarker }

/-- A neutral concrete material used by example models. -/
def exMaterial : MaterialSpec := { color := some 0xcccccc, opacity := some 1 }

/-- Example model-A layers (the spec's scenario A with explicit materials):
declared thicknesses 10 and 2. -/
def exElemA : ElementRec := { thickness := some 10, material := some (some exMaterial) }

/-- Second layer of the example model: declared thickness 2. -/
def exElemB : ElementRec := { thickness := some 2, material := some (some exMaterial) }

/-- The example two-sheet model. -/
def exModelA : ModelList := .mcons (.elem exElemA) (.mcons (.elem exElemB) .mnil)

/-- Element `exElemA` after default resolution against the built-in defaults. -/
def exElemADef : ElementRec :=
  { builtinDefaultElement with thickness := some 10, material := some (some exMaterial) }

/-- Element `exElemB` after default resolution against the built-in defaults. -/
def exElemBDef : ElementRec :=
  { builtinDefaultElement with thickness := some 2, material := some (some exMaterial) }

/-- A sheet element carrying only an explicit material. -/
def exSheetElem : ElementRec := { material := some (some exMaterial) }

/-- Element `exSheetElem` after default resolution against the built-in defaults. -/
def exSheetDefaulted : ElementRec :=
  { builtinDefaultElement with material := some (some exMaterial) }

/-- The spec's scenario-B unit layer: 250 × 250 units (with an explicit
material so that materialization succeeds). -/
def exUnitElem : ElementRec :=
  { type := some "unit", height := some 250, width := some 250,
    material := some (some exMaterial) }

/-- Element `exUnitElem` after default resolution against the built-in defaults. -/
def exUnitDefaulted : ElementRec :=
  { builtinDefaultElement with
    type := some "unit"
    height := some 250
    width := some 250
    material := some (some exMaterial) }

/-- A unit layer whose unit height is 0 (with an explicit material). -/
def exUnitZeroH : ElementRec :=
  { type := some "unit", height := some 0, width := some 250,
    material := some (some exMaterial) }

/-- A unit layer whose unit width is 0 (with an explicit material). -/
def exUnitZeroW : ElementRec :=
  { type := some "unit", height := some 250, width := some 0,
    material := some (some exMaterial) }

/-- A frame-type layer. -/
def exFrameElem : ElementRec := { type := some "frame" }

/-- An element with an unrecognized type tag (with an explicit material). -/
def exWeirdElem : ElementRec :=
  { type := some "weird", material := some (some exMaterial) }

/-- Element `exWeirdElem` after default resolution against the built-in defaults. -/
def exWeirdDefaulted : ElementRec :=
  { builtinDefaultElement with
    type := some "weird"
    material := some (some exMaterial) }

/-- The centers assigned by the stacking loop to a list of effective
thicknesses, starting from a running offset. -/
def stackCenters (tot : ℚ) : List ℚ → List ℚ
  | [] => []
  | t :: ts => (tot + t / 2) :: stackCenters (tot + t) ts

/-- The effective thicknesses of a model's layers as `build()` computes
them (after default resolution against the built-in defaults). -/
def stackThicknesses (model : ModelList) : List ℚ :=
  ((applyModelDefaultsList model builtinDefaultElement).toList).map effQ

/-- The spec-side composite thickness: the maximum over the direct members'
`thickness` fields (members without one are skipped), seeded with 0. -/
def directMaxThickness (ms : ModelList) : ℚ :=
  (ms.toList.filterMap memberThickness).foldl max 0

/-- Every key present on `d` is present on `e`. -/
def hasAllKeysOf (d e : ElementRec) : Prop :=
  (d.name.isSome → e.name.isSome) ∧
  (d.constructionPlane.isSome → e.constructionPlane.isSome) ∧
  (d.height.isSome → e.height.isSome) ∧
  (d.width.isSome → e.width.isSome) ∧
  (d.thickness.isSome → e.thickness.isSome) ∧
  (d.color.isSome → e.color.isSome) ∧
  (d.opacity.isSome → e.opacity.isSome) ∧
  (d.material.isSome → e.material.isSome) ∧
  (d.transparency.isSome → e.transparency.isSome) ∧
  (d.type.isSome → e.type.isSome) ∧
  (d.offset.isSome → e.offset.isSome)

/-- Default resolution never overwrites a field already present on an
element: each present field survives unchanged. -/
def keepsPresentFields (e d : ElementRec) : Prop :=
  (e.name.isSome → (applyElementDefaults e d).name = e.name) ∧
  (e.constructionPlane.isSome →
      (applyElementDefaults e d).constructionPlane = e.constructionPlane) ∧
  (e.height.isSome → (applyElementDefaults e d).height = e.height) ∧
  (e.width.isSome → (applyElementDefaults e d).width = e.width) ∧
  (e.thickness.isSome → (applyElementDefaults e d).thickness = e.thickness) ∧
  (e.color.isSome → (applyElementDefaults e d).color = e.color) ∧
  (e.opacity.isSome → (applyElementDefaults e d).opacity = e.opacity) ∧
  (e.material.isSome → (applyElementDefaults e d).material = e.material) ∧
  (e.transparency.isSome →
      (applyElementDefaults e d).transparency = e.transparency) ∧
  (e.type.isSome → (applyElementDefaults e d).type = e.type) ∧
  (e.offset.isSome → (applyElementDefaults e d).offset = e.offset)

/-- The first positioned mesh that `build` produces for `exModelA`. -/
def exBuildMeshA : Obj :=
  .box (some "element") (some 500) (some 500) (some 10)
    (.lambert (some 0xcccccc) 1) ⟨some 0, some 0, some 5⟩

/-- The second positioned mesh that `build` produces for `exModelA`:
declared thickness 2 is floored to 5 for stacking, so the slab is centered
at 10 + 5/2. -/
def exBuildMeshB : Obj :=
  .box (some "element") (some 500) (some 500) (some 2)
    (.lambert (some 0xcccccc) 1) ⟨some 0, some 0, some (25 / 2)⟩

/-- The full output `build` produces for `exModelA`. -/
def exBuildPair : List Obj × ℚ := ([exBuildMeshA, exBuildMeshB], 15)

/-- Element `exFrameElem` after default resolution against the built-in defaults. -/
def exFrameDefaulted : ElementRec :=
  { builtinDefaultElement with type := some "frame" }

/-! ## Helper lemmas about the embedded compiler -/

theorem toList_applyModelDefaultsList : (ms : ModelList) → (d : ElementRec) →
    (applyModelDefaultsList ms d).toList
      = ms.toList.map (fun m => applyModelDefaults m d)
  | .mnil, d => by simp [applyModelDefaultsList, ModelList.toList]
  | .mcons m tail, d => by
    simp [applyModelDefaultsList, ModelList.toList,
      toList_applyModelDefaultsList tail d]

theorem objPos_setObjPos (o : Obj) (p : Vec3) : objPos (setObjPos o p) = p := by
  cases o <;> rfl

theorem eff_some_ge_five (m : Model) (t : ℚ)
    (h : effectiveThickness m = some t) : 5 ≤ t := by
  unfold effectiveThickness at h
  cases hr : rawThickness m with
  | none => rw [hr] at h; exact absurd h (by simp)
  | some t0 =>
    rw [hr, Option.some.injEq] at h
    subst h
    by_cases h5 : t0 < 5
    · rw [if_pos h5]
    · rw [if_neg h5]; exact not_lt.mp h5

theorem eff_defaulted_builtin (m : Model) :
    effectiveThickness (applyModelDefaults m builtinDefaultElement)
      = some (effQ (applyModelDefaults m builtinDefaultElement)) ∧
    5 ≤ effQ (applyModelDefaults m builtinDefaultElement) := by
  have hsome : (effectiveThickness (applyModelDefaults m builtinDefaultElement)).isSome := by
    cases m with
    | elem e =>
      cases he : e.thickness <;>
        simp [applyModelDefaults, effectiveThickness, rawThickness,
          applyElementDefaults, keyDefault, he, builtinDefaultElement]
    | comp ms => simp [applyModelDefaults, effectiveThickness, rawThickness]
  obtain ⟨t, ht⟩ := Option.isSome_iff_exists.mp hsome
  have hq : effQ (applyModelDefaults m builtinDefaultElement) = t := by
    simp [effQ, ht]
  refine ⟨by rw [ht, hq], ?_⟩
  rw [hq]
  exact eff_some_ge_five _ t ht

theorem stackCenters_length : (ts : List ℚ) → (tot : ℚ) →
    (stackCenters tot ts).length = ts.length
  | [], _ => rfl
  | t :: ts, tot => by simp [stackCenters, stackCenters_length ts (tot + t)]

theorem stackCenters_get : (ts : List ℚ) → (tot : ℚ) → (i : ℕ) →
    (h1 : i < (stackCenters tot ts).length) → (h2 : i < ts.length) →
    (stackCenters tot ts).get ⟨i, h1⟩
      = tot + (ts.take i).sum + ts.get ⟨i, h2⟩ / 2
  | [], _, i, _, h2 => by simp at h2
  | t :: ts, tot, 0, h1, h2 => by simp [stackCenters]
  | t :: ts, tot, i + 1, h1, h2 => by
    have ih := stackCenters_get ts (tot + t) i
      (by simpa [stackCenters, stackCenters_length] using h1) (by simpa using h2)
    simp only [stackCenters, List.get_cons_succ, List.take_succ_cons, List.sum_cons]
    rw [ih]; ring

theorem sum_take_mono (l : List ℚ) (hl : ∀ x ∈ l, 0 ≤ x) :
    ∀ i j : ℕ, i ≤ j → (l.take i).sum ≤ (l.take j).sum := by
  intro i j hij
  have h1 : l.take i = (l.take j).take i := by
    rw [List.take_take, min_eq_left hij]
  have h0 : 0 ≤ ((l.take j).drop i).sum :=
    List.sum_nonneg fun x hx =>
      hl x (List.mem_of_mem_take (List.mem_of_mem_drop hx))
  have h2 := List.sum_take_add_sum_drop (l.take j) i
  rw [h1]
  linarith

theorem buildAux_spec (d : ElementRec) : (layers : ModelList) → (tot : ℚ) →
    (out : List Obj) → (total : ℚ) →
    buildAux d layers tot = .ok (out, total) →
    (∀ m ∈ layers.toList, effectiveThickness m = some (effQ m)) →
    out.map (fun o => (objPos o).z)
        = (stackCenters tot (layers.toList.map effQ)).map some ∧
      total = tot + (layers.toList.map effQ).sum
  | .mnil, tot, out, total, h, _ => by
    simp only [buildAux, BuildResult.ok.injEq, Prod.mk.injEq] at h
    obtain ⟨h1, h2⟩ := h
    subst h1; subst h2
    simp [ModelList.toList, stackCenters]
  | .mcons layer rest, tot, out, total, h, hs => by
    have hlay : effectiveThickness layer = some (effQ layer) :=
      hs layer (by simp [ModelList.toList])
    simp only [buildAux] at h
    cases hbl : buildLayer d layer with
    | typeError => rw [hbl] at h; exact absurd h (by simp)
    | diverges => rw [hbl] at h; exact absurd h (by simp)
    | ok o =>
      rw [hbl] at h
      cases o with
      | none => exact absurd h (by simp)
      | some mesh =>
        cases hrec : buildAux d rest (tot + (effectiveThickness layer).getD 0) with
        | typeError => rw [hrec] at h; exact absurd h (by simp)
        | diverges => rw [hrec] at h; exact absurd h (by simp)
        | ok p =>
          obtain ⟨ps, final⟩ := p
          rw [hrec] at h
          simp only [BuildResult.ok.injEq, Prod.mk.injEq] at h
          obtain ⟨hout, htotal⟩ := h
          subst hout; subst htotal
          have ih := buildAux_spec d rest (tot + (effectiveThickness layer).getD 0)
            ps final hrec (fun m hm => hs m (by simp [ModelList.toList, hm]))
          have hget : (effectiveThickness layer).getD 0 = effQ layer := rfl
          rw [hget] at ih
          constructor
          · simp only [ModelList.toList, List.map_cons, stackCenters,
              objPos_setObjPos, hlay, ih.1]
            rfl
          · rw [ih.2]
            simp only [ModelList.toList, List.map_cons, List.sum_cons]
            ring

theorem keyDefault_isSome {α : Type} (v dv : Option α) (h : dv.isSome) :
    (keyDefault v dv).isSome := by
  cases v <;> simp [keyDefault, h]

theorem keyDefault_keeps {α : Type} (v dv : Option α) (h : v.isSome) :
    keyDefault v dv = v := by
  cases v with
  | none => simp at h
  | some x => rfl

theorem applyElementDefaults_complete (e d : ElementRec) :
    hasAllKeysOf d (applyElementDefaults e d) :=
  ⟨fun h => keyDefault_isSome _ _ h, fun h => keyDefault_isSome _ _ h,
   fun h => keyDefault_isSome _ _ h, fun h => keyDefault_isSome _ _ h,
   fun h => keyDefault_isSome _ _ h, fun h => keyDefault_isSome _ _ h,
   fun h => keyDefault_isSome _ _ h, fun h => keyDefault_isSome _ _ h,
   fun h => keyDefault_isSome _ _ h, fun h => keyDefault_isSome _ _ h,
   fun h => keyDefault_isSome _ _ h⟩

theorem keepsPresentFields_holds (e d : ElementRec) : keepsPresentFields e d :=
  ⟨fun h => keyDefault_keeps _ _ h, fun h => keyDefault_keeps _ _ h,
   fun h => keyDefault_keeps _ _ h, fun h => keyDefault_keeps _ _ h,
   fun h => keyDefault_keeps _ _ h, fun h => keyDefault_keeps _ _ h,
   fun h => keyDefault_keeps _ _ h, fun h => keyDefault_keeps _ _ h,
   fun h => keyDefault_keeps _ _ h, fun h => keyDefault_keeps _ _ h,
   fun h => keyDefault_keeps _ _ h⟩

mutual
theorem leavesOf_defaulted (m : Model) (d : ElementRec) :
    ∀ e ∈ leavesOf (applyModelDefaults m d), ∃ e0, e = applyElementDefaults e0 d :=
  match m with
  | .elem e0 => by
    intro e he
    simp [applyModelDefaults, leavesOf] at he
    exact ⟨e0, he⟩
  | .comp ms => by
    intro e he
    simp only [applyModelDefaults, leavesOf] at he
    exact leavesOfList_defaulted ms d e he
theorem leavesOfList_defaulted (ms : ModelList) (d : ElementRec) :
    ∀ e ∈ leavesOfList (applyModelDefaultsList ms d), ∃ e0, e = applyElementDefaults e0 d :=
  match ms with
  | .mnil => by intro e he; simp [applyModelDefaultsList, leavesOfList] at he
  | .mcons m tail => by
    intro e he
    simp only [applyModelDefaultsList, leavesOfList, List.mem_append] at he
    rcases he with h | h
    · exact leavesOf_defaulted m d e h
    · exact leavesOfList_defaulted tail d e h
end

theorem ite_lt_max (a t : ℚ) : (if a < t then t else a) = max a t := by
  rcases le_or_lt t a with h | h
  · rw [if_neg (not_lt.mpr h), max_eq_left h]
  · rw [if_pos h, max_eq_right (le_of_lt h)]

theorem reduceThicknessAux_foldl : (ms : ModelList) → (a : ℚ) →
    reduceThicknessAux ms a = (ms.toList.filterMap memberThickness).foldl max a
  | .mnil, _ => rfl
  | .mcons m tail, a => by
    cases hm : memberThickness m with
    | none =>
      simp [reduceThicknessAux, ModelList.toList, hm,
        reduceThicknessAux_foldl tail a]
    | some t =>
      simp [reduceThicknessAux, ModelList.toList, hm, ite_lt_max,
        reduceThicknessAux_foldl tail (max a t)]

theorem effectiveThickness_comp (ms : ModelList) :
    effectiveThickness (.comp ms) = some (max 5 (directMaxThickness ms)) := by
  have h2 : effectiveThickness (.comp ms)
      = some (if directMaxThickness ms < 5 then 5 else directMaxThickness ms) := by
    simp [effectiveThickness, rawThickness, reduceThickness,
      reduceThicknessAux_foldl ms 0, directMaxThickness]
  rw [h2, ite_lt_max, max_comm]

theorem buildLayer_sheet_eq (d e : ElementRec) (off : OffsetRec)
    (mat : ResolvedMaterial)
    (h1 : e.type ≠ some "unit") (h2 : e.type ≠ some "frame")
    (h3 : e.type ≠ some "void") (hoff : e.offset = some off)
    (hmat : getMaterial (Option.join e.material) = .ok mat) :
    buildLayer d (.elem e)
      = .ok (some (.box e.name d.width d.height
          (osub (osub e.thickness off.front) off.back) mat origin3)) := by
  simp only [buildLayer]
  rw [if_neg h1, if_neg h2, if_neg h3, hoff]
  simp only [createUnitMesh, hmat]

theorem length_grid {β : Type} (f : ℕ → ℕ → β) (r c : ℕ) :
    ((List.range r).flatMap fun i => (List.range c).map (f i)).length = r * c := by
  rw [List.length_flatMap]
  have h1 : List.map (List.length ∘ fun i => (List.range c).map (f i)) (List.range r)
      = List.map (fun _ => c) (List.range r) := by
    apply List.map_congr_left
    intro a _
    simp
  rw [h1, List.map_const', List.length_range, List.sum_replicate, smul_eq_mul,
    mul_comm]

theorem gridUnits_length (obj : ElementRec) (off : OffsetRec)
    (mat : ResolvedMaterial) (r c : ℕ) :
    (gridUnits obj off mat r c).length = r * c := by
  rw [gridUnits]
  exact length_grid _ r c

theorem gridUnits_mem (obj : ElementRec) (off : OffsetRec)
    (mat : ResolvedMaterial) (r c : ℕ) (u : Obj) :
    u ∈ gridUnits obj off mat r c ↔
      ∃ i, i < r ∧ ∃ j, j < c ∧
        Obj.box obj.name
          (osub (osub obj.width off.left) off.right)
          (osub (osub obj.height off.top) off.bottom)
          (osub (osub obj.thickness off.front) off.back)
          mat ⟨omul (some (j : ℚ)) obj.width,
               omul (some (i : ℚ)) obj.height, some 0⟩ = u := by
  simp only [gridUnits, List.mem_flatMap, List.mem_map, List.mem_range]

theorem createUnitizedMesh_eq_pos (obj d : ElementRec) (W H w h : ℚ)
    (hW : d.width = some W) (hH : d.height = some H)
    (hw : obj.width = some w) (hh : obj.height = some h)
    (hw0 : 0 < w) (hh0 : 0 < h) (hW0 : 0 < W) (hH0 : 0 < H)
    (off : OffsetRec) (hoff : obj.offset = some off)
    (mat : ResolvedMaterial)
    (hmat : getMaterial (Option.join obj.material) = .ok mat) :
    createUnitizedMesh obj d
      = .ok (.group
          ⟨some (-((⌈W / w⌉ : ℚ) * w / 2) + w * (1 / 2)),
           some (-((⌈H / h⌉ : ℚ) * h / 2) + h * (1 / 2)), some 0⟩
          (gridUnits obj off mat (⌈H / h⌉).toNat (⌈W / w⌉).toNat)) := by
  have hrowsR : jsCeilDiv d.height (some h) = .fin ⌈H / h⌉ := by
    rw [hH]; simp [jsCeilDiv, hh0.ne']
  have hcolsR : jsCeilDiv d.width (some w) = .fin ⌈W / w⌉ := by
    rw [hW]; simp [jsCeilDiv, hw0.ne']
  have hr1 : 1 ≤ ⌈H / h⌉ := by
    have := Int.ceil_pos.mpr (div_pos hH0 hh0); omega
  have hc1 : 1 ≤ ⌈W / w⌉ := by
    have := Int.ceil_pos.mpr (div_pos hW0 hw0); omega
  obtain ⟨r, hr⟩ : ∃ r, (⌈H / h⌉).toNat = r + 1 := ⟨(⌈H / h⌉ - 1).toNat, by omega⟩
  obtain ⟨c, hc⟩ : ∃ c, (⌈W / w⌉).toNat = c + 1 := ⟨(⌈W / w⌉ - 1).toNat, by omega⟩
  simp only [createUnitizedMesh, hw, hh, hrowsR, hcolsR, loopCount, hr, hc,
    hoff, hmat, gridShift]

/-! ## Claim theorems -/

/-- Claim C1: for every model compiled by `build()` against the built-in
defaults, with effective thicknesses `t_1..t_N`, layer i's mesh is centered
on the construction axis at `sum(t_1..t_{i-1}) + t_i / 2`, the running
offset after layer i equals `sum(t_1..t_i)` (monotonically non-decreasing),
and the total stack span equals `sum(t_1..t_N)`; consecutive slots share
exactly their boundary, so there are no gaps or overlaps. -/
theorem build_stacking (model : ModelList) (out : List Obj) (total : ℚ)
    (h : build model builtinDefaultElement = .ok (out, total)) :
    out.length = (stackThicknesses model).length ∧
    total = (stackThicknesses model).sum ∧
    (∀ (i : ℕ) (h1 : i < out.length) (h2 : i < (stackThicknesses model).length),
      (objPos (out.get ⟨i, h1⟩)).z
        = some (((stackThicknesses model).take i).sum
            + (stackThicknesses model).get ⟨i, h2⟩ / 2)) ∧
    (∀ (i : ℕ) (h2 : i < (stackThicknesses model).length),
      ((stackThicknesses model).take i).sum
          + (stackThicknesses model).get ⟨i, h2⟩
        = ((stackThicknesses model).take (i + 1)).sum) ∧
    (∀ i j : ℕ, i ≤ j →
      ((stackThicknesses model).take i).sum
        ≤ ((stackThicknesses model).take j).sum) := by
  have hs : ∀ m ∈ (applyModelDefaultsList model builtinDefaultElement).toList,
      effectiveThickness m = some (effQ m) := by
    intro m hm
    rw [toList_applyModelDefaultsList] at hm
    obtain ⟨y, _, rfl⟩ := List.mem_map.mp hm
    exact (eff_defaulted_builtin y).1
  obtain ⟨hmap, htot⟩ :=
    buildAux_spec builtinDefaultElement _ 0 out total h hs
  have hts : (applyModelDefaultsList model builtinDefaultElement).toList.map effQ
      = stackThicknesses model := rfl
  rw [hts] at hmap htot
  have hpos : ∀ t ∈ stackThicknesses model, 0 ≤ t := by
    intro t ht
    unfold stackThicknesses at ht
    obtain ⟨y, hy, rfl⟩ := List.mem_map.mp ht
    rw [toList_applyModelDefaultsList] at hy
    obtain ⟨y0, _, rfl⟩ := List.mem_map.mp hy
    linarith [(eff_defaulted_builtin y0).2]
  have hlen : out.length = (stackThicknesses model).length := by
    have h2 := congrArg List.length hmap
    simpa [stackCenters_length] using h2
  refine ⟨hlen, by simpa using htot, ?_, ?_, ?_⟩
  · intro i h1 h2
    have hq : (out.map (fun o => (objPos o).z))[i]?
        = (((stackCenters 0 (stackThicknesses model)).map some))[i]? := by
      rw [hmap]
    have hic : i < (stackCenters 0 (stackThicknesses model)).length := by
      rw [stackCenters_length]; exact h2
    rw [List.getElem?_map, List.getElem?_map,
      List.getElem?_eq_getElem h1, List.getElem?_eq_getElem hic] at hq
    simp only [Option.map_some'] at hq
    have hget := stackCenters_get (stackThicknesses model) 0 i hic h2
    rw [← List.get_eq_getElem out ⟨i, h1⟩] at hq
    injection hq with hq1
    rw [hq1]
    rw [show (stackCenters 0 (stackThicknesses model))[i]
        = (stackCenters 0 (stackThicknesses model)).get ⟨i, hic⟩ from rfl, hget]
    rw [zero_add]
  · intro i h2
    exact (List.sum_take_succ _ i h2).symm
  · exact sum_take_mono _ hpos

/-- Witness for C1: the two-layer example model builds successfully and its
final running offset equals the sum of the effective thicknesses. -/
theorem build_stacking_witness :
    exBuildPair.2 = (stackThicknesses exModelA).sum := by
  have hd : applyModelDefaultsList exModelA builtinDefaultElement
      = .mcons (.elem exElemADef) (.mcons (.elem exElemBDef) .mnil) := rfl
  have hA : buildLayer builtinDefaultElement (.elem exElemADef)
      = .ok (some (.box (some "element") (some 500) (some 500) (some 10)
          (.lambert (some 0xcccccc) 1) origin3)) := by
    simp [buildLayer, exElemADef, builtinDefaultElement, builtinOffsets,
      createUnitMesh, getMaterial, osub, exMaterial, jsOr1, origin3]
  have hB : buildLayer builtinDefaultElement (.elem exElemBDef)
      = .ok (some (.box (some "element") (some 500) (some 500) (some 2)
          (.lambert (some 0xcccccc) 1) origin3)) := by
    simp [buildLayer, exElemBDef, builtinDefaultElement, builtinOffsets,
      createUnitMesh, getMaterial, osub, exMaterial, jsOr1, origin3]
  have hEA : effectiveThickness (.elem exElemADef) = some 10 := by
    norm_num [effectiveThickness, rawThickness, exElemADef, builtinDefaultElement]
  have hEB : effectiveThickness (.elem exElemBDef) = some 5 := by
    norm_num [effectiveThickness, rawThickness, exElemBDef, builtinDefaultElement]
  have h : build exModelA builtinDefaultElement
      = .ok (exBuildPair.1, exBuildPair.2) := by
    rw [build, hd, show (exBuildPair.1, exBuildPair.2) = exBuildPair from rfl]
    norm_num [buildAux, hA, hB, hEA, hEB, setObjPos, origin3, exBuildPair,
      exBuildMeshA, exBuildMeshB]
  exact (build_stacking exModelA exBuildPair.1 exBuildPair.2 h).2.1

/-- Claim C2 (amended): the effective stacking thickness computed during
`build()` is at least 5 whenever it is a number, and against the built-in
defaults it always is one; a declared thickness of 0 or a negative value is
floored to 5, but an absent thickness is filled by default resolution with
the default thickness 10 before the floor is applied — it does not fall back
to the floor value 5. -/
theorem effectiveThickness_floor :
    (∀ (m : Model) (d : ElementRec) (t : ℚ),
        effectiveThickness (applyModelDefaults m d) = some t → 5 ≤ t) ∧
    (∀ m : Model, ∃ t,
        effectiveThickness (applyModelDefaults m builtinDefaultElement)
          = some t ∧ 5 ≤ t) ∧
    effectiveThickness
        (applyModelDefaults (.elem { thickness := some 0 }) builtinDefaultElement)
      = some 5 ∧
    effectiveThickness
        (applyModelDefaults (.elem { thickness := some (-3) }) builtinDefaultElement)
      = some 5 ∧
    effectiveThickness (applyModelDefaults (.elem {}) builtinDefaultElement)
      = some 10 := by
  refine ⟨fun m d t h => eff_some_ge_five _ t h, fun m => ?_, ?_, ?_, ?_⟩
  · obtain ⟨h1, h2⟩ := eff_defaulted_builtin m
    exact ⟨_, h1, h2⟩
  · norm_num [applyModelDefaults, applyElementDefaults, keyDefault,
      effectiveThickness, rawThickness, builtinDefaultElement]
  · norm_num [applyModelDefaults, applyElementDefaults, keyDefault,
      effectiveThickness, rawThickness, builtinDefaultElement]
  · norm_num [applyModelDefaults, applyElementDefaults, keyDefault,
      effectiveThickness, rawThickness, builtinDefaultElement]

/-- Counterexample for C2 as stated: an element with no `thickness` key does
not get the floor value 5 — after default resolution its effective thickness
is the default 10. -/
theorem effectiveThickness_absent_counterexample :
    effectiveThickness (applyModelDefaults (.elem {}) builtinDefaultElement)
      ≠ some 5 := by
  norm_num [applyModelDefaults, applyElementDefaults, keyDefault,
    effectiveThickness, rawThickness, builtinDefaultElement]

/-- Witness for C2: a layer with declared thickness 7 keeps it, and the
floor bound is realized. -/
theorem effectiveThickness_floor_witness : (5 : ℚ) ≤ 7 := by
  refine effectiveThickness_floor.1 (.elem { thickness := some 7 })
    builtinDefaultElement 7 ?_
  norm_num [applyModelDefaults, applyElementDefaults, keyDefault,
    effectiveThickness, rawThickness, builtinDefaultElement]

/-- Claim C5: a composite layer's effective stacking thickness is the
maximum over its direct members' `thickness` fields (members without one,
such as nested composites, are skipped) floored at 5; in particular a
composite of elements with thickness 3 and 8 has effective thickness 8, and
the computation is not recursive: a nested composite containing an element
of thickness 50 contributes nothing. -/
theorem compositeThickness_spec :
    (∀ ms : ModelList,
        effectiveThickness (.comp ms) = some (max 5 (directMaxThickness ms))) ∧
    effectiveThickness (.comp (.mcons (.elem { thickness := some 3 })
        (.mcons (.elem { thickness := some 8 }) .mnil))) = some 8 ∧
    effectiveThickness (.comp (.mcons (.elem { thickness := some 3 })
        (.mcons (.comp (.mcons (.elem { thickness := some 50 }) .mnil)) .mnil)))
      = some 5 := by
  refine ⟨effectiveThickness_comp, ?_, ?_⟩
  · norm_num [effectiveThickness, rawThickness, reduceThickness,
      reduceThicknessAux, memberThickness]
  · norm_num [effectiveThickness, rawThickness, reduceThickness,
      reduceThicknessAux, memberThickness]

/-- Claim C3: for a unit-type layer materialized by `createUnitizedMesh`,
with coverage `(W, H)` taken from the defaults record and positive unit size
`(w, h)`, the grid holds exactly `ceil(W/w) * ceil(H/h)` unit volumes placed
at local positions `(col * w, row * h)`, the whole grid is translated by
`(-(cols*w)/2 + w/2, -(rows*h)/2 + h/2, 0)`, and the extreme cell centers
land symmetrically about the local origin on X and Y regardless of
row/column parity. -/
theorem createUnitizedMesh_grid (obj d : ElementRec) (W H w h : ℚ)
    (hW : d.width = some W) (hH : d.height = some H)
    (hw : obj.width = some w) (hh : obj.height = some h)
    (hw0 : 0 < w) (hh0 : 0 < h) (hW0 : 0 < W) (hH0 : 0 < H)
    (off : OffsetRec) (hoff : obj.offset = some off)
    (mat : ResolvedMaterial)
    (hmat : getMaterial (Option.join obj.material) = .ok mat) :
    createUnitizedMesh obj d
        = .ok (.group
            ⟨some (-((⌈W / w⌉ : ℚ) * w / 2) + w * (1 / 2)),
             some (-((⌈H / h⌉ : ℚ) * h / 2) + h * (1 / 2)), some 0⟩
            (gridUnits obj off mat (⌈H / h⌉).toNat (⌈W / w⌉).toNat)) ∧
    ((gridUnits obj off mat (⌈H / h⌉).toNat (⌈W / w⌉).toNat).length : ℤ)
        = ⌈W / w⌉ * ⌈H / h⌉ ∧
    (∀ i j : ℕ, i < (⌈H / h⌉).toNat → j < (⌈W / w⌉).toNat →
      Obj.box obj.name (osub (osub obj.width off.left) off.right)
        (osub (osub obj.height off.top) off.bottom)
        (osub (osub obj.thickness off.front) off.back) mat
        ⟨some ((j : ℚ) * w), some ((i : ℚ) * h), some 0⟩
        ∈ gridUnits obj off mat (⌈H / h⌉).toNat (⌈W / w⌉).toNat) ∧
    (∀ u ∈ gridUnits obj off mat (⌈H / h⌉).toNat (⌈W / w⌉).toNat,
      ∃ i j : ℕ, i < (⌈H / h⌉).toNat ∧ j < (⌈W / w⌉).toNat ∧
        (objPos u).x = some ((j : ℚ) * w) ∧ (objPos u).y = some ((i : ℚ) * h)) ∧
    ((-((⌈W / w⌉ : ℚ) * w / 2) + w * (1 / 2)) + (0 : ℚ) * w)
        + ((-((⌈W / w⌉ : ℚ) * w / 2) + w * (1 / 2)) + ((⌈W / w⌉ : ℚ) - 1) * w)
      = 0 ∧
    ((-((⌈H / h⌉ : ℚ) * h / 2) + h * (1 / 2)) + (0 : ℚ) * h)
        + ((-((⌈H / h⌉ : ℚ) * h / 2) + h * (1 / 2)) + ((⌈H / h⌉ : ℚ) - 1) * h)
      = 0 := by
  have hr0 : (0 : ℤ) ≤ ⌈H / h⌉ := le_of_lt (Int.ceil_pos.mpr (div_pos hH0 hh0))
  have hc0 : (0 : ℤ) ≤ ⌈W / w⌉ := le_of_lt (Int.ceil_pos.mpr (div_pos hW0 hw0))
  refine ⟨createUnitizedMesh_eq_pos obj d W H w h hW hH hw hh hw0 hh0 hW0 hH0
      off hoff mat hmat, ?_, ?_, ?_, by ring, by ring⟩
  · rw [gridUnits_length]
    push_cast [Int.toNat_of_nonneg hr0, Int.toNat_of_nonneg hc0]
    ring
  · intro i j hi hj
    rw [gridUnits_mem]
    exact ⟨i, hi, j, hj, by rw [hw, hh]; rfl⟩
  · intro u hu
    rw [gridUnits_mem] at hu
    obtain ⟨i, hi, j, hj, hueq⟩ := hu
    subst hueq
    exact ⟨i, j, hi, hj, by simp [objPos, hw, omul], by simp [objPos, hh, omul]⟩

/-- Witness for C3 (the spec's scenario B): a 250 × 250 unit layer against
the 500 × 500 built-in coverage yields a 2 × 2 grid of 4 units, with the
centering translation equal to −125 on both axes. -/
theorem createUnitizedMesh_grid_witness :
    createUnitizedMesh exUnitDefaulted builtinDefaultElement
        = .ok (.group
            ⟨some (-((⌈(500 : ℚ) / 250⌉ : ℚ) * 250 / 2) + 250 * (1 / 2)),
             some (-((⌈(500 : ℚ) / 250⌉ : ℚ) * 250 / 2) + 250 * (1 / 2)), some 0⟩
            (gridUnits exUnitDefaulted builtinOffsets (.lambert (some 0xcccccc) 1)
              (⌈(500 : ℚ) / 250⌉).toNat (⌈(500 : ℚ) / 250⌉).toNat)) ∧
    ((gridUnits exUnitDefaulted builtinOffsets (.lambert (some 0xcccccc) 1)
        (⌈(500 : ℚ) / 250⌉).toNat (⌈(500 : ℚ) / 250⌉).toNat).length : ℤ)
      = ⌈(500 : ℚ) / 250⌉ * ⌈(500 : ℚ) / 250⌉ ∧
    ⌈(500 : ℚ) / 250⌉ = 2 ∧
    (-(((2 : ℤ) : ℚ) * 250 / 2) + 250 * (1 / 2)) = -125 := by
  have hmat : getMaterial (Option.join exUnitDefaulted.material)
      = .ok (.lambert (some 0xcccccc) 1) := by
    norm_num [exUnitDefaulted, exMaterial, getMaterial, jsOr1]
  have hceil : ⌈(500 : ℚ) / 250⌉ = 2 := by
    rw [show (500 : ℚ) / 250 = ((2 : ℤ) : ℚ) by norm_num, Int.ceil_intCast]
  have h := createUnitizedMesh_grid exUnitDefaulted builtinDefaultElement
    500 500 250 250 rfl rfl rfl rfl (by norm_num) (by norm_num) (by norm_num)
    (by norm_num) builtinOffsets rfl (.lambert (some 0xcccccc) 1) hmat
  exact ⟨h.1, h.2.1, hceil, by norm_num⟩

/-- Claim C4: for every model, including arbitrarily nested composites,
after default resolution every leaf element record has every key of the
defaults record present, and no field already present on an element is
overwritten — presence is checked per field. -/
theorem defaults_complete_and_preserving :
    (∀ (m : Model) (d : ElementRec),
        ∀ e ∈ leavesOf (applyModelDefaults m d), hasAllKeysOf d e) ∧
    (∀ e d : ElementRec, keepsPresentFields e d) := by
  refine ⟨?_, keepsPresentFields_holds⟩
  intro m d e he
  obtain ⟨e0, rfl⟩ := leavesOf_defaulted m d e he
  exact applyElementDefaults_complete e0 d

/-- Witness for C4: the defaulted bare element in a singleton model has all
keys of the built-in defaults record. -/
theorem defaults_complete_witness :
    hasAllKeysOf builtinDefaultElement
      (applyElementDefaults {} builtinDefaultElement) := by
  refine defaults_complete_and_preserving.1 (.elem {}) builtinDefaultElement _ ?_
  simp [applyModelDefaults, leavesOf]

/-- Claim C6: a sheet-type layer (the default dispatch case) materializes to
a single solid volume whose width and height come from the DEFAULT element
record, not the layer's own fields, and whose box thickness is
`layer.thickness - layer.offset.front - layer.offset.back`. -/
theorem buildLayer_sheet (d e : ElementRec) (off : OffsetRec)
    (t f b : ℚ) (spec : MaterialSpec)
    (h1 : e.type ≠ some "unit") (h2 : e.type ≠ some "frame")
    (h3 : e.type ≠ some "void") (hoff : e.offset = some off)
    (hf : off.front = some f) (hb : off.back = some b)
    (ht : e.thickness = some t)
    (hm : Option.join e.material = some spec) (htex : spec.texture = none) :
    buildLayer d (.elem e)
      = .ok (some (.box e.name d.width d.height (some (t - f - b))
          (.lambert spec.color (jsOr1 spec.opacity)) origin3)) := by
  have hmat : getMaterial (Option.join e.material)
      = .ok (.lambert spec.color (jsOr1 spec.opacity)) := by
    rw [hm]; simp [getMaterial, htex]
  rw [buildLayer_sheet_eq d e off _ h1 h2 h3 hoff hmat, ht, hf, hb]
  rfl

/-- Witness for C6: the bare sheet element with an explicit material builds
to a 500 × 500 slab (the default footprint) of box thickness 10 − 0 − 0. -/
theorem buildLayer_sheet_witness :
    buildLayer builtinDefaultElement (.elem exSheetDefaulted)
      = .ok (some (.box (some "element") (some 500) (some 500)
          (some ((10 : ℚ) - 0 - 0))
          (.lambert (some 0xcccccc) (jsOr1 (some 1))) origin3)) := by
  exact buildLayer_sheet builtinDefaultElement exSheetDefaulted builtinOffsets
    10 0 0 exMaterial (by decide) (by decide) (by decide) rfl rfl rfl rfl rfl rfl

/-- Running `buildLayer` on a frame-type element returns `undefined` (no mesh). -/
theorem buildLayer_frame (d e : ElementRec) (h : e.type = some "frame") :
    buildLayer d (.elem e) = .ok none := by
  simp [buildLayer, h]

/-- Running `build()` on a model whose only layer is a frame element throws: the
undefined mesh reaches `mesh.position.set`. -/
theorem build_frame_crash :
    build (.mcons (.elem exFrameElem) .mnil) builtinDefaultElement
      = .typeError := by
  have hd : applyModelDefaultsList (.mcons (.elem exFrameElem) .mnil)
        builtinDefaultElement
      = .mcons (.elem exFrameDefaulted) .mnil := rfl
  have hf : buildLayer builtinDefaultElement (.elem exFrameDefaulted)
      = .ok none := buildLayer_frame _ _ rfl
  rw [build, hd]
  simp [buildAux, hf]

/-- Counterexample for C7 as stated: with a frame layer at top level the
build does not complete — it throws a TypeError. -/
theorem frame_layer_counterexample :
    build (.mcons (.elem exFrameElem) .mnil) builtinDefaultElement
      = .typeError :=
  build_frame_crash

/-- Claim C7 (amended): a frame layer produces no mesh (`undefined`); inside
a composite it is silently skipped, but at top level it makes `build()`
throw a TypeError instead of completing.  A layer with an unrecognized type
tag is not treated as an empty volume: it falls through to the sheet branch
and is materialized as a solid box. -/
theorem frame_and_unknown_types :
    (∀ d e : ElementRec, e.type = some "frame" →
        buildLayer d (.elem e) = .ok none) ∧
    build (.mcons (.elem exFrameElem) .mnil) builtinDefaultElement
        = .typeError ∧
    buildLayer builtinDefaultElement
        (.comp (.mcons (.elem exFrameDefaulted) .mnil))
      = .ok (some (.group origin3 [])) ∧
    (∀ (d e : ElementRec) (off : OffsetRec) (mat : ResolvedMaterial)
        (ty : String), e.type = some ty →
        ty ≠ "unit" → ty ≠ "frame" → ty ≠ "void" →
        e.offset = some off →
        getMaterial (Option.join e.material) = .ok mat →
        buildLayer d (.elem e)
          = .ok (some (.box e.name d.width d.height
              (osub (osub e.thickness off.front) off.back) mat origin3))) := by
  refine ⟨buildLayer_frame, build_frame_crash, ?_, ?_⟩
  · simp [buildLayer, buildMembers, exFrameDefaulted, builtinDefaultElement]
  · intro d e off mat ty hty hu hfr hv hoff hmat
    refine buildLayer_sheet_eq d e off mat ?_ ?_ ?_ hoff hmat
    · rw [hty]; intro hcon; exact hu (Option.some.inj hcon)
    · rw [hty]; intro hcon; exact hfr (Option.some.inj hcon)
    · rw [hty]; intro hcon; exact hv (Option.some.inj hcon)

/-- Witness for C7: the frame element yields no mesh, and the layer with
type tag "weird" materializes as a solid sheet-like box. -/
theorem frame_and_unknown_types_witness :
    buildLayer builtinDefaultElement (.elem exFrameDefaulted) = .ok none ∧
    buildLayer builtinDefaultElement (.elem exWeirdDefaulted)
      = .ok (some (.box (some "element") (some 500) (some 500)
          (osub (osub (some 10) (some 0)) (some 0))
          (.lambert (some 0xcccccc) (jsOr1 (some 1))) origin3)) := by
  constructor
  · exact frame_and_unknown_types.1 builtinDefaultElement exFrameDefaulted rfl
  · exact frame_and_unknown_types.2.2.2 builtinDefaultElement exWeirdDefaulted
      builtinOffsets (.lambert (some 0xcccccc) (jsOr1 (some 1))) "weird"
      rfl (by decide) (by decide) (by decide) rfl rfl

/-- Claim C8 (code bug): material resolution IS reached with the null
default material — `createUnitMesh` passes `layer.material` straight into
`getMaterial`, whose `material.color` access throws on null, so a bare sheet
element under the built-in defaults (which set `material: null`) makes
`build()` throw a TypeError instead of using a fallback material. -/
theorem getMaterial_null_crash :
    getMaterial none = .typeError ∧
    Option.join (applyElementDefaults {} builtinDefaultElement).material
        = none ∧
    build (.mcons (.elem {}) .mnil) builtinDefaultElement = .typeError := by
  refine ⟨rfl, rfl, ?_⟩
  have hd : applyModelDefaultsList (.mcons (.elem ({} : ElementRec)) .mnil)
        builtinDefaultElement
      = .mcons (.elem builtinDefaultElement) .mnil := rfl
  have hb : buildLayer builtinDefaultElement (.elem builtinDefaultElement)
      = .typeError := by
    simp [buildLayer, builtinDefaultElement, builtinOffsets, createUnitMesh,
      getMaterial, osub]
  rw [build, hd]
  simp [buildAux, hb]

/-- Claim C9 (code bug): a unit layer whose unit height or width is 0 does
not fail with a clean configuration error — `Math.ceil(500 / 0)` is
`Infinity`, so the tiling loop never terminates and `build()` diverges. -/
theorem unit_zero_dimension_diverges :
    jsCeilDiv (some 500) (some 0) = .posInf ∧
    build (.mcons (.elem exUnitZeroH) .mnil) builtinDefaultElement
        = .diverges ∧
    build (.mcons (.elem exUnitZeroW) .mnil) builtinDefaultElement
        = .diverges := by
  have hcd0 : jsCeilDiv (some (500 : ℚ)) (some 0) = .posInf := by
    norm_num [jsCeilDiv]
  have hcd2 : jsCeilDiv (some (500 : ℚ)) (some 250) = .fin 2 := by
    norm_num [jsCeilDiv]
  refine ⟨hcd0, ?_, ?_⟩
  · have hd : applyModelDefaultsList (.mcons (.elem exUnitZeroH) .mnil)
          builtinDefaultElement
        = .mcons (.elem { builtinDefaultElement with
            type := some "unit", height := some 0,
            material := some (some exMaterial), width := some 250 }) .mnil := rfl
    have hb : buildLayer builtinDefaultElement
        (.elem { builtinDefaultElement with
            type := some "unit", height := some 0,
            material := some (some exMaterial), width := some 250 })
        = .diverges := by
      simp [buildLayer, createUnitizedMesh, hcd0, hcd2, loopCount,
        builtinDefaultElement, getMaterial, exMaterial]
    rw [build, hd]
    simp [buildAux, hb]
  · have hd : applyModelDefaultsList (.mcons (.elem exUnitZeroW) .mnil)
          builtinDefaultElement
        = .mcons (.elem { builtinDefaultElement with
            type := some "unit", width := some 0,
            material := some (some exMaterial), height := some 250 }) .mnil := rfl
    have hb : buildLayer builtinDefaultElement
        (.elem { builtinDefaultElement with
            type := some "unit", width := some 0,
            material := some (some exMaterial), height := some 250 })
        = .diverges := by
      simp [buildLayer, createUnitizedMesh, hcd0, hcd2, loopCount,
        builtinDefaultElement, getMaterial, exMaterial]
    rw [build, hd]
    simp [buildAux, hb]

/-- Claim C10: constructor option overriding is shallow and wholesale: a
supplied top-level key — including `defaultElement` — replaces the built-in
value entirely rather than being merged per field, so a partial
`defaultElement` record loses the built-in `thickness`, `type` and `offset`,
while top-level keys absent from the supplied record keep their built-in
values. -/
theorem overrideOptions_wholesale :
    (∀ (p : OptionsPatch) (e : ElementRec), p.defaultElement = some e →
        (overrideOptions builtinOptions p).defaultElement = e) ∧
    (∀ p : OptionsPatch, p.defaultElement = none →
        (overrideOptions builtinOptions p).defaultElement
          = builtinDefaultElement) ∧
    (∀ p : OptionsPatch, p.fps = none →
        (overrideOptions builtinOptions p).fps = 30) ∧
    (overrideOptions builtinOptions
        { defaultElement := some { name := some "custom" } }).defaultElement.thickness
      = none ∧
    (overrideOptions builtinOptions
        { defaultElement := some { name := some "custom" } }).defaultElement.type
      = none ∧
    (overrideOptions builtinOptions
        { defaultElement := some { name := some "custom" } }).defaultElement.offset
      = none ∧
    (overrideOptions builtinOptions
        { defaultElement := some { name := some "custom" } }).fps = 30 := by
  refine ⟨?_, ?_, ?_, rfl, rfl, rfl, rfl⟩
  · intro p e hp; simp [overrideOptions, hp]
  · intro p hp; simp [overrideOptions, hp, builtinOptions]
  · intro p hp; simp [overrideOptions, hp, builtinOptions]

/-- Witness for C10: a patch carrying only a partial `defaultElement`
replaces the built-in default element with exactly that partial record. -/
theorem overrideOptions_wholesale_witness :
    (overrideOptions builtinOptions
        { defaultElement := some { name := some "custom" } }).defaultElement
      = { name := some "custom" } :=
  overrideOptions_wholesale.1 _ _ rfl
